import Mathlib

/-!
Shallow embedding of `src/starter-bots/rust/src/json.rs` from the
2019-Worms starter bot.

The Rust file defines a serde-based data model for the game-state
snapshot (`State` and its nested entities), a loader
(`read_state_from_json_file`, i.e. file read + `serde_json::from_str`),
two accessors (`State::active_worm`, `State::cell_at`, both of which
panic when their lookup fails) and four checked directional helpers on
`Position` (`west`, `east`, `north`, `south`).

Modelling choices:
- `u32` values are `Nat` together with an explicit `< 2 ^ 32` bound;
  `checked_add` / `checked_sub` become explicit bound tests.
- JSON documents are the inductive `Json`; numerals are modelled as
  naturals (every number in this wire format is a `u32`).
- The serde-derived deserializers become `decode*` functions returning
  `Except String _`; serde's derive ignores unknown object fields,
  treats a missing or `null` `Option` field as `None`, and tries the
  variants of the untagged `CellWorm` enum in declaration order.
  Object field lookup takes the first occurrence of a key.
- The serde-derived serializers become `encode*` functions; `None` in
  an `Option` field is serialized as an explicit `null` field.
- The panics in `active_worm` / `cell_at` are modelled by `Option`:
  `none` is the panic outcome, `some` the returned reference.
-/

/-- A JSON value, restricted to natural-number numerals (all numbers in
this wire format are `u32`). -/
inductive Json where
  | null : Json
  | num : Nat → Json
  | str : String → Json
  | arr : List Json → Json
  | obj : List (String × Json) → Json

/-- The `u32` range bound. -/
def U32SIZE : Nat := 2 ^ 32

/-- Look up a field of a JSON object by name (first occurrence). -/
def getField (fs : List (String × Json)) (name : String) : Option Json :=
  (fs.find? (fun p => p.1 == name)).map (fun p => p.2)

/-- Deserialize a `u32`: a natural numeral below `2 ^ 32`. -/
def decodeU32 (j : Json) : Except String Nat :=
  match j with
  | .num n => if n < U32SIZE then .ok n else .error "number out of u32 range"
  | _ => .error "expected a u32 number"

/-- Read a required field and decode it with `dec`; a missing field is a
schema error (serde: required struct field). -/
def reqField (fs : List (String × Json)) (name : String)
    (dec : Json → Except String α) : Except String α :=
  match getField fs name with
  | some j => dec j
  | none => .error ("missing field " ++ name)

/-- Read an optional field (serde `Option`): missing or `null` is
`none`, any other value must decode. -/
def optField (fs : List (String × Json)) (name : String)
    (dec : Json → Except String α) : Except String (Option α) :=
  match getField fs name with
  | none => .ok none
  | some .null => .ok none
  | some j => (dec j).map some

/-- Deserialize a JSON array element-wise (serde `Vec`). -/
def decodeList (dec : Json → Except String α) : List Json → Except String (List α)
  | [] => .ok []
  | j :: js => do
    let a ← dec j
    let as ← decodeList dec js
    pure (a :: as)

/-- Deserialize a `Vec<T>` from a JSON value: must be an array. -/
def decodeVec (dec : Json → Except String α) (j : Json) : Except String (List α) :=
  match j with
  | .arr js => decodeList dec js
  | _ => .error "expected an array"

/-- True exactly on the error outcome. -/
def Except.isErr : Except ε α → Bool
  | .error _ => true
  | .ok _ => false

/-- `struct Position { x: u32, y: u32 }`. -/
structure Position where
  x : Nat
  y : Nat
deriving DecidableEq, Repr

/-- `struct Weapon { damage: u32, range: u32 }`. -/
structure Weapon where
  damage : Nat
  range : Nat
deriving DecidableEq, Repr

/-- `enum CellType { Air, Dirt, DeepSpace }`. -/
inductive CellType where
  | air : CellType
  | dirt : CellType
  | deepSpace : CellType
deriving DecidableEq, Repr

/-- `enum PowerupType { HealthPack }`. -/
inductive PowerupType where
  | healthPack : PowerupType
deriving DecidableEq, Repr

/-- `struct Powerup { powerup_type: PowerupType, value: u32 }` (the
type field is renamed to `"type"` on the wire). -/
structure Powerup where
  powerup_type : PowerupType
  value : Nat
deriving DecidableEq, Repr

/-- `enum CellWorm` — untagged: a cell occupier is either a
player-owned worm (with weapon) or an opponent worm (without). -/
inductive CellWorm where
  | playerWorm (id player_id health : Nat) (position : Position)
      (digging_range movement_range : Nat) (weapon : Weapon) : CellWorm
  | opponentWorm (id player_id health : Nat) (position : Position)
      (digging_range movement_range : Nat) : CellWorm
deriving DecidableEq, Repr

/-- `struct Cell` — coordinates, terrain type, optional occupier and
optional powerup. -/
structure Cell where
  x : Nat
  y : Nat
  cell_type : CellType
  occupier : Option CellWorm
  powerup : Option Powerup
deriving DecidableEq, Repr

/-- `struct PlayerWorm`. -/
structure PlayerWorm where
  id : Nat
  health : Nat
  position : Position
  digging_range : Nat
  movement_range : Nat
  weapon : Weapon
deriving DecidableEq, Repr

/-- `struct Player`. -/
structure Player where
  id : Nat
  score : Nat
  health : Nat
  worms : List PlayerWorm
deriving DecidableEq, Repr

/-- `struct OpponentWorm`. -/
structure OpponentWorm where
  id : Nat
  health : Nat
  position : Position
  digging_range : Nat
  movement_range : Nat
deriving DecidableEq, Repr

/-- `struct Opponent`. -/
structure Opponent where
  id : Nat
  score : Nat
  worms : List OpponentWorm
deriving DecidableEq, Repr

/-- `struct State` — the root snapshot. -/
structure State where
  current_round : Nat
  max_rounds : Nat
  map_size : Nat
  current_worm_id : Nat
  consecutive_do_nothing_count : Nat
  my_player : Player
  opponents : List Opponent
  map : List (List Cell)
deriving DecidableEq, Repr

/-- `Position::west`: `checked_sub` on x, keeping y. -/
def Position.west (p : Position) (distance : Nat) : Option Position :=
  if distance ≤ p.x then some { x := p.x - distance, y := p.y } else none

/-- `Position::east`: `checked_add` on x (None past `u32::MAX`), then
filtered by `x < max`, keeping y. -/
def Position.east (p : Position) (distance mx : Nat) : Option Position :=
  if p.x + distance < U32SIZE then
    if p.x + distance < mx then some { x := p.x + distance, y := p.y } else none
  else none

/-- `Position::north`: `checked_sub` on y, keeping x. -/
def Position.north (p : Position) (distance : Nat) : Option Position :=
  if distance ≤ p.y then some { x := p.x, y := p.y - distance } else none

/-- `Position::south`: `checked_add` on y (None past `u32::MAX`), then
filtered by `y < max`, keeping x. -/
def Position.south (p : Position) (distance mx : Nat) : Option Position :=
  if p.y + distance < U32SIZE then
    if p.y + distance < mx then some { x := p.x, y := p.y + distance } else none
  else none

/-- `State::active_worm`: first worm of `my_player.worms` whose id is
`current_worm_id`; `none` models the panic when there is none. -/
def State.active_worm (s : State) : Option PlayerWorm :=
  s.my_player.worms.find? (fun w => w.id == s.current_worm_id)

/-- `State::cell_at`: scan the flattened map for the first cell whose
stored coordinates equal `pos`; `none` models the panic. -/
def State.cell_at (s : State) (pos : Position) : Option Cell :=
  s.map.flatten.find? (fun c => c.x == pos.x && c.y == pos.y)

/-- Deserialize `Position` (required fields `x`, `y`). -/
def decodePosition (j : Json) : Except String Position :=
  match j with
  | .obj fs => do
    let x ← reqField fs "x" decodeU32
    let y ← reqField fs "y" decodeU32
    pure { x := x, y := y }
  | _ => .error "expected an object for Position"

/-- Deserialize `Weapon` (required fields `damage`, `range`). -/
def decodeWeapon (j : Json) : Except String Weapon :=
  match j with
  | .obj fs => do
    let damage ← reqField fs "damage" decodeU32
    let range ← reqField fs "range" decodeU32
    pure { damage := damage, range := range }
  | _ => .error "expected an object for Weapon"

/-- Deserialize `CellType` from its SCREAMING_SNAKE_CASE token; any
other token is a schema error, never a fallback variant. -/
def decodeCellType (j : Json) : Except String CellType :=
  match j with
  | .str s =>
    if s = "AIR" then .ok .air
    else if s = "DIRT" then .ok .dirt
    else if s = "DEEP_SPACE" then .ok .deepSpace
    else .error ("unknown variant of CellType: " ++ s)
  | _ => .error "expected a string for CellType"

/-- Deserialize `PowerupType`; only `HEALTH_PACK` is accepted. -/
def decodePowerupType (j : Json) : Except String PowerupType :=
  match j with
  | .str s =>
    if s = "HEALTH_PACK" then .ok .healthPack
    else .error ("unknown variant of PowerupType: " ++ s)
  | _ => .error "expected a string for PowerupType"

/-- Deserialize `Powerup` (wire field `type` maps to `powerup_type`). -/
def decodePowerup (j : Json) : Except String Powerup :=
  match j with
  | .obj fs => do
    let t ← reqField fs "type" decodePowerupType
    let v ← reqField fs "value" decodeU32
    pure { powerup_type := t, value := v }
  | _ => .error "expected an object for Powerup"

/-- Deserialize the weapon-bearing (player-owned) `CellWorm` variant
from an object's fields. -/
def decodePlayerCellWorm (fs : List (String × Json)) : Except String CellWorm := do
  let i ← reqField fs "id" decodeU32
  let pid ← reqField fs "playerId" decodeU32
  let h ← reqField fs "health" decodeU32
  let pos ← reqField fs "position" decodePosition
  let dr ← reqField fs "diggingRange" decodeU32
  let mr ← reqField fs "movementRange" decodeU32
  let w ← reqField fs "weapon" decodeWeapon
  pure (.playerWorm i pid h pos dr mr w)

/-- Deserialize the weapon-less (opponent-owned) `CellWorm` variant
from an object's fields. -/
def decodeOpponentCellWorm (fs : List (String × Json)) : Except String CellWorm := do
  let i ← reqField fs "id" decodeU32
  let pid ← reqField fs "playerId" decodeU32
  let h ← reqField fs "health" decodeU32
  let pos ← reqField fs "position" decodePosition
  let dr ← reqField fs "diggingRange" decodeU32
  let mr ← reqField fs "movementRange" decodeU32
  pure (.opponentWorm i pid h pos dr mr)

/-- Deserialize the untagged `CellWorm` enum: try the weapon-bearing
variant first, fall back to the weapon-less one, else fail. -/
def decodeCellWorm (j : Json) : Except String CellWorm :=
  match j with
  | .obj fs =>
    match decodePlayerCellWorm fs with
    | .ok w => .ok w
    | .error _ =>
      match decodeOpponentCellWorm fs with
      | .ok w => .ok w
      | .error _ => .error "data did not match any variant of untagged enum CellWorm"
  | _ => .error "data did not match any variant of untagged enum CellWorm"

/-- Deserialize `Cell`; `occupier` and `powerup` are optional. -/
def decodeCell (j : Json) : Except String Cell :=
  match j with
  | .obj fs => do
    let x ← reqField fs "x" decodeU32
    let y ← reqField fs "y" decodeU32
    let t ← reqField fs "type" decodeCellType
    let occ ← optField fs "occupier" decodeCellWorm
    let pw ← optField fs "powerup" decodePowerup
    pure { x := x, y := y, cell_type := t, occupier := occ, powerup := pw }
  | _ => .error "expected an object for Cell"

/-- Deserialize `PlayerWorm`. -/
def decodePlayerWorm (j : Json) : Except String PlayerWorm :=
  match j with
  | .obj fs => do
    let i ← reqField fs "id" decodeU32
    let h ← reqField fs "health" decodeU32
    let pos ← reqField fs "position" decodePosition
    let dr ← reqField fs "diggingRange" decodeU32
    let mr ← reqField fs "movementRange" decodeU32
    let w ← reqField fs "weapon" decodeWeapon
    pure { id := i, health := h, position := pos, digging_range := dr,
           movement_range := mr, weapon := w }
  | _ => .error "expected an object for PlayerWorm"

/-- Deserialize `Player`. -/
def decodePlayer (j : Json) : Except String Player :=
  match j with
  | .obj fs => do
    let i ← reqField fs "id" decodeU32
    let sc ← reqField fs "score" decodeU32
    let h ← reqField fs "health" decodeU32
    let ws ← reqField fs "worms" (decodeVec decodePlayerWorm)
    pure { id := i, score := sc, health := h, worms := ws }
  | _ => .error "expected an object for Player"

/-- Deserialize `OpponentWorm`. -/
def decodeOpponentWorm (j : Json) : Except String OpponentWorm :=
  match j with
  | .obj fs => do
    let i ← reqField fs "id" decodeU32
    let h ← reqField fs "health" decodeU32
    let pos ← reqField fs "position" decodePosition
    let dr ← reqField fs "diggingRange" decodeU32
    let mr ← reqField fs "movementRange" decodeU32
    pure { id := i, health := h, position := pos, digging_range := dr,
           movement_range := mr }
  | _ => .error "expected an object for OpponentWorm"

/-- Deserialize `Opponent`. -/
def decodeOpponent (j : Json) : Except String Opponent :=
  match j with
  | .obj fs => do
    let i ← reqField fs "id" decodeU32
    let sc ← reqField fs "score" decodeU32
    let ws ← reqField fs "worms" (decodeVec decodeOpponentWorm)
    pure { id := i, score := sc, worms := ws }
  | _ => .error "expected an object for Opponent"

/-- Deserialize `State`: the parse stage of `read_state_from_json_file`
(`serde_json::from_str::<State>`); the file-read stage only supplies
the document. -/
def decodeState (j : Json) : Except String State :=
  match j with
  | .obj fs => do
    let cr ← reqField fs "currentRound" decodeU32
    let mxr ← reqField fs "maxRounds" decodeU32
    let ms ← reqField fs "mapSize" decodeU32
    let cw ← reqField fs "currentWormId" decodeU32
    let cd ← reqField fs "consecutiveDoNothingCount" decodeU32
    let mp ← reqField fs "myPlayer" decodePlayer
    let ops ← reqField fs "opponents" (decodeVec decodeOpponent)
    let mp2 ← reqField fs "map" (decodeVec (decodeVec decodeCell))
    pure { current_round := cr, max_rounds := mxr, map_size := ms,
           current_worm_id := cw, consecutive_do_nothing_count := cd,
           my_player := mp, opponents := ops, map := mp2 }
  | _ => .error "expected an object for State"

/-- Serialize an `Option` field value: serde writes `None` as `null`. -/
def encodeOpt (enc : α → Json) : Option α → Json
  | none => .null
  | some a => enc a

/-- Serialize `Position`. -/
def encodePosition (p : Position) : Json :=
  .obj [("x", .num p.x), ("y", .num p.y)]

/-- Serialize `Weapon`. -/
def encodeWeapon (w : Weapon) : Json :=
  .obj [("damage", .num w.damage), ("range", .num w.range)]

/-- Serialize `CellType` as its SCREAMING_SNAKE_CASE token. -/
def encodeCellType : CellType → Json
  | .air => .str "AIR"
  | .dirt => .str "DIRT"
  | .deepSpace => .str "DEEP_SPACE"

/-- Serialize `PowerupType`. -/
def encodePowerupType : PowerupType → Json
  | .healthPack => .str "HEALTH_PACK"

/-- Serialize `Powerup` (`powerup_type` renamed to `type`). -/
def encodePowerup (p : Powerup) : Json :=
  .obj [("type", encodePowerupType p.powerup_type), ("value", .num p.value)]

/-- Serialize the untagged `CellWorm`: just the variant's fields. -/
def encodeCellWorm : CellWorm → Json
  | .playerWorm i pid h pos dr mr w =>
    .obj [("id", .num i), ("playerId", .num pid), ("health", .num h),
          ("position", encodePosition pos), ("diggingRange", .num dr),
          ("movementRange", .num mr), ("weapon", encodeWeapon w)]
  | .opponentWorm i pid h pos dr mr =>
    .obj [("id", .num i), ("playerId", .num pid), ("health", .num h),
          ("position", encodePosition pos), ("diggingRange", .num dr),
          ("movementRange", .num mr)]

/-- Serialize `Cell`. -/
def encodeCell (c : Cell) : Json :=
  .obj [("x", .num c.x), ("y", .num c.y),
        ("type", encodeCellType c.cell_type),
        ("occupier", encodeOpt encodeCellWorm c.occupier),
        ("powerup", encodeOpt encodePowerup c.powerup)]

/-- Serialize `PlayerWorm`. -/
def encodePlayerWorm (w : PlayerWorm) : Json :=
  .obj [("id", .num w.id), ("health", .num w.health),
        ("position", encodePosition w.position),
        ("diggingRange", .num w.digging_range),
        ("movementRange", .num w.movement_range),
        ("weapon", encodeWeapon w.weapon)]

/-- Serialize `Player`. -/
def encodePlayer (p : Player) : Json :=
  .obj [("id", .num p.id), ("score", .num p.score), ("health", .num p.health),
        ("worms", .arr (p.worms.map encodePlayerWorm))]

/-- Serialize `OpponentWorm`. -/
def encodeOpponentWorm (w : OpponentWorm) : Json :=
  .obj [("id", .num w.id), ("health", .num w.health),
        ("position", encodePosition w.position),
        ("diggingRange", .num w.digging_range),
        ("movementRange", .num w.movement_range)]

/-- Serialize `Opponent`. -/
def encodeOpponent (o : Opponent) : Json :=
  .obj [("id", .num o.id), ("score", .num o.score),
        ("worms", .arr (o.worms.map encodeOpponentWorm))]

/-- Serialize `State`. -/
def encodeState (s : State) : Json :=
  .obj [("currentRound", .num s.current_round),
        ("maxRounds", .num s.max_rounds),
        ("mapSize", .num s.map_size),
        ("currentWormId", .num s.current_worm_id),
        ("consecutiveDoNothingCount", .num s.consecutive_do_nothing_count),
        ("myPlayer", encodePlayer s.my_player),
        ("opponents", .arr (s.opponents.map encodeOpponent)),
        ("map", .arr (s.map.map (fun row => .arr (row.map encodeCell))))]

/-- Position fields fit in `u32`. -/
def Position.valid (p : Position) : Bool :=
  decide (p.x < U32SIZE) && decide (p.y < U32SIZE)

/-- Weapon fields fit in `u32`. -/
def Weapon.valid (w : Weapon) : Bool :=
  decide (w.damage < U32SIZE) && decide (w.range < U32SIZE)

/-- Powerup value fits in `u32`. -/
def Powerup.valid (p : Powerup) : Bool :=
  decide (p.value < U32SIZE)

/-- CellWorm fields fit in `u32`. -/
def CellWorm.valid : CellWorm → Bool
  | .playerWorm i pid h pos dr mr w =>
    decide (i < U32SIZE) && decide (pid < U32SIZE) && decide (h < U32SIZE) &&
    pos.valid && decide (dr < U32SIZE) && decide (mr < U32SIZE) && w.valid
  | .opponentWorm i pid h pos dr mr =>
    decide (i < U32SIZE) && decide (pid < U32SIZE) && decide (h < U32SIZE) &&
    pos.valid && decide (dr < U32SIZE) && decide (mr < U32SIZE)

/-- Validity of an optional component. -/
def optValid (f : α → Bool) : Option α → Bool
  | none => true
  | some a => f a

/-- Cell fields fit in `u32`, components valid. -/
def Cell.valid (c : Cell) : Bool :=
  decide (c.x < U32SIZE) && decide (c.y < U32SIZE) &&
  optValid CellWorm.valid c.occupier && optValid Powerup.valid c.powerup

/-- PlayerWorm fields fit in `u32`, components valid. -/
def PlayerWorm.valid (w : PlayerWorm) : Bool :=
  decide (w.id < U32SIZE) && decide (w.health < U32SIZE) && w.position.valid &&
  decide (w.digging_range < U32SIZE) && decide (w.movement_range < U32SIZE) &&
  w.weapon.valid

/-- Player fields fit in `u32`, worms valid. -/
def Player.valid (p : Player) : Bool :=
  decide (p.id < U32SIZE) && decide (p.score < U32SIZE) &&
  decide (p.health < U32SIZE) && p.worms.all PlayerWorm.valid

/-- OpponentWorm fields fit in `u32`, position valid. -/
def OpponentWorm.valid (w : OpponentWorm) : Bool :=
  decide (w.id < U32SIZE) && decide (w.health < U32SIZE) && w.position.valid &&
  decide (w.digging_range < U32SIZE) && decide (w.movement_range < U32SIZE)

/-- Opponent fields fit in `u32`, worms valid. -/
def Opponent.valid (o : Opponent) : Bool :=
  decide (o.id < U32SIZE) && decide (o.score < U32SIZE) &&
  o.worms.all OpponentWorm.valid

/-- A well-formed `State` value: every `u32` field in range, every
nested component well-formed (this is exactly what the Rust types
guarantee of any `State` value). -/
def State.valid (s : State) : Bool :=
  decide (s.current_round < U32SIZE) && decide (s.max_rounds < U32SIZE) &&
  decide (s.map_size < U32SIZE) && decide (s.current_worm_id < U32SIZE) &&
  decide (s.consecutive_do_nothing_count < U32SIZE) && s.my_player.valid &&
  s.opponents.all Opponent.valid && s.map.all (fun row => row.all Cell.valid)

/-- Wire names of the required fields of `State`. -/
def stateRequiredFields : List String :=
  ["currentRound", "maxRounds", "mapSize", "currentWormId",
   "consecutiveDoNothingCount", "myPlayer", "opponents", "map"]

/-- Wire names of the required fields of `Player`. -/
def playerRequiredFields : List String :=
  ["id", "score", "health", "worms"]

/-- Wire names of the required fields of `PlayerWorm`. -/
def playerWormRequiredFields : List String :=
  ["id", "health", "position", "diggingRange", "movementRange", "weapon"]

/-- Wire names of the required fields of `Opponent`. -/
def opponentRequiredFields : List String :=
  ["id", "score", "worms"]

/-- Wire names of the required fields of `OpponentWorm`. -/
def opponentWormRequiredFields : List String :=
  ["id", "health", "position", "diggingRange", "movementRange"]

/-- Wire names of the required fields of `Cell` (`occupier` and
`powerup` are optional). -/
def cellRequiredFields : List String :=
  ["x", "y", "type"]

/-- Wire names of the required fields of `Powerup`. -/
def powerupRequiredFields : List String :=
  ["type", "value"]

/-- Wire names of the required fields of `Position`. -/
def positionRequiredFields : List String :=
  ["x", "y"]

/-- Wire names of the required fields of `Weapon`. -/
def weaponRequiredFields : List String :=
  ["damage", "range"]

/-- Wire names required by BOTH `CellWorm` variants: a cell occupier
object missing one of these matches neither variant. -/
def cellWormSharedRequiredFields : List String :=
  ["id", "playerId", "health", "position", "diggingRange", "movementRange"]

/-- The example snapshot document from the repository's inline test
(`example_parses_correctly`): a 2-row by 3-column map with `mapSize`
33, one player worm, one opponent worm, a powerup at (0,1), an
opponent occupier at (1,1) and a player occupier at (2,1). -/
def exampleJson : Json :=
  .obj [("currentRound", .num 0), ("maxRounds", .num 200),
    ("mapSize", .num 33), ("currentWormId", .num 1),
    ("consecutiveDoNothingCount", .num 0),
    ("myPlayer", .obj [("id", .num 1), ("score", .num 100),
      ("health", .num 300),
      ("worms", .arr [.obj [("id", .num 1), ("health", .num 100),
        ("position", .obj [("x", .num 24), ("y", .num 29)]),
        ("weapon", .obj [("damage", .num 1), ("range", .num 3)]),
        ("diggingRange", .num 1), ("movementRange", .num 1)]])]),
    ("opponents", .arr [.obj [("id", .num 2), ("score", .num 100),
      ("worms", .arr [.obj [("id", .num 1), ("health", .num 100),
        ("position", .obj [("x", .num 31), ("y", .num 16)]),
        ("diggingRange", .num 1), ("movementRange", .num 1)]])]]),
    ("map", .arr [
      .arr [
        .obj [("x", .num 0), ("y", .num 0), ("type", .str "DEEP_SPACE")],
        .obj [("x", .num 1), ("y", .num 0), ("type", .str "AIR")],
        .obj [("x", .num 2), ("y", .num 0), ("type", .str "DIRT")]],
      .arr [
        .obj [("x", .num 0), ("y", .num 1), ("type", .str "AIR"),
          ("powerup", .obj [("type", .str "HEALTH_PACK"), ("value", .num 5)])],
        .obj [("x", .num 1), ("y", .num 1), ("type", .str "AIR"),
          ("occupier", .obj [("id", .num 1), ("playerId", .num 2),
            ("health", .num 100),
            ("position", .obj [("x", .num 1), ("y", .num 1)]),
            ("diggingRange", .num 1), ("movementRange", .num 1)])],
        .obj [("x", .num 2), ("y", .num 1), ("type", .str "AIR"),
          ("occupier", .obj [("id", .num 1), ("playerId", .num 1),
            ("health", .num 100),
            ("position", .obj [("x", .num 2), ("y", .num 1)]),
            ("weapon", .obj [("damage", .num 1), ("range", .num 3)]),
            ("diggingRange", .num 1), ("movementRange", .num 1)])]]])]

/-- The `State` value the repository's inline test expects for
`exampleJson`. -/
def exampleState : State :=
  { current_round := 0, max_rounds := 200, map_size := 33,
    current_worm_id := 1, consecutive_do_nothing_count := 0,
    my_player :=
      { id := 1, score := 100, health := 300,
        worms := [{ id := 1,
                    health := 100,
                    position := { x := 24, y := 29 },
                    digging_range := 1,
                    movement_range := 1,
                    weapon := { damage := 1, range := 3 } }] },
    opponents :=
      [{ id := 2, score := 100,
         worms := [{ id := 1,
                     health := 100,
                     position := { x := 31, y := 16 },
                     digging_range := 1,
                     movement_range := 1 }] }],
    map :=
      [[{ x := 0, y := 0, cell_type := .deepSpace, occupier := none,
          powerup := none },
        { x := 1, y := 0, cell_type := .air, occupier := none,
          powerup := none },
        { x := 2, y := 0, cell_type := .dirt, occupier := none,
          powerup := none }],
       [{ x := 0, y := 1, cell_type := .air, occupier := none,
          powerup := some { powerup_type := .healthPack, value := 5 } },
        { x := 1, y := 1, cell_type := .air,
          occupier := some (.opponentWorm 1 2 100 { x := 1, y := 1 } 1 1),
          powerup := none },
        { x := 2, y := 1, cell_type := .air,
          occupier := some (.playerWorm 1 1 100 { x := 2, y := 1 } 1 1
            { damage := 1, range := 3 }),
          powerup := none }]] }

/-- A schema-conforming document that violates both halves of the §3
invariant: `mapSize` is 5 but the map is 1 row of 1 cell, and
`currentWormId` 7 matches no worm of `myPlayer.worms`. -/
def invariantViolatingDoc : Json :=
  .obj [("currentRound", .num 0), ("maxRounds", .num 10),
    ("mapSize", .num 5), ("currentWormId", .num 7),
    ("consecutiveDoNothingCount", .num 0),
    ("myPlayer", .obj [("id", .num 1), ("score", .num 0),
      ("health", .num 100),
      ("worms", .arr [.obj [("id", .num 3), ("health", .num 100),
        ("position", .obj [("x", .num 0), ("y", .num 0)]),
        ("weapon", .obj [("damage", .num 1), ("range", .num 3)]),
        ("diggingRange", .num 1), ("movementRange", .num 1)]])]),
    ("opponents", .arr []),
    ("map", .arr [.arr [
      .obj [("x", .num 0), ("y", .num 0), ("type", .str "AIR")]]])]

/-- The `State` value `invariantViolatingDoc` parses to. -/
def invariantViolatingState : State :=
  { current_round := 0, max_rounds := 10, map_size := 5,
    current_worm_id := 7, consecutive_do_nothing_count := 0,
    my_player :=
      { id := 1, score := 0, health := 100,
        worms := [{ id := 3,
                    health := 100,
                    position := { x := 0, y := 0 },
                    digging_range := 1,
                    movement_range := 1,
                    weapon := { damage := 1, range := 3 } }] },
    opponents := [],
    map := [[{ x := 0, y := 0, cell_type := .air, occupier := none,
               powerup := none }]] }

/-- A fully populated 2 by 2 snapshot with pairwise distinct cell
coordinates, used to witness the accessor contracts. -/
def gridExampleState : State :=
  { current_round := 1, max_rounds := 10, map_size := 2,
    current_worm_id := 1, consecutive_do_nothing_count := 0,
    my_player :=
      { id := 1, score := 0, health := 100,
        worms := [{ id := 1,
                    health := 100,
                    position := { x := 0, y := 0 },
                    digging_range := 1,
                    movement_range := 1,
                    weapon := { damage := 1, range := 3 } }] },
    opponents := [],
    map :=
      [[{ x := 0, y := 0, cell_type := .air, occupier := none, powerup := none },
        { x := 1, y := 0, cell_type := .dirt, occupier := none, powerup := none }],
       [{ x := 0, y := 1, cell_type := .air, occupier := none, powerup := none },
        { x := 1, y := 1, cell_type := .deepSpace, occupier := none,
          powerup := none }]] }

/-- Bind on a success value applies the continuation. -/
theorem exceptBindOk (a : α) (f : α → Except ε β) : (Except.ok a >>= f) = f a := rfl

/-- Bind on an error short-circuits. -/
theorem exceptBindErr (e : ε) (f : α → Except ε β) :
    ((Except.error e : Except ε α) >>= f) = .error e := rfl

/-- Pure is the success constructor. -/
theorem exceptPure (a : α) : (pure a : Except ε α) = .ok a := rfl

/-- Map on a success value. -/
theorem exceptMapOk (f : α → β) (a : α) :
    (Except.map f (.ok a) : Except ε β) = .ok (f a) := rfl

/-- If every continuation result is an error, so is the bind. -/
theorem isErrBind (x : Except ε α) (f : α → Except ε β)
    (h : ∀ a, (f a).isErr = true) : (x >>= f).isErr = true := by
  cases x with
  | error e => rfl
  | ok a => exact h a

/-- A bind headed by a required-field read of a missing field is an
error whatever the continuation. -/
theorem isErrReqBind (fs : List (String × Json)) (name : String)
    (dec : Json → Except String α) (k : α → Except String β)
    (h : getField fs name = none) :
    (reqField fs name dec >>= k).isErr = true := by
  simp only [reqField, h]
  rfl

/-- Round-trip for `Position` on in-range values. -/
theorem roundtripPosition (p : Position) (h : p.valid = true) :
    decodePosition (encodePosition p) = .ok p := by
  simp [Position.valid] at h
  simp [encodePosition, decodePosition, reqField, getField, List.find?,
    decodeU32, exceptBindOk, exceptPure, h.1, h.2]

/-- Round-trip for `Weapon` on in-range values. -/
theorem roundtripWeapon (w : Weapon) (h : w.valid = true) :
    decodeWeapon (encodeWeapon w) = .ok w := by
  simp [Weapon.valid] at h
  simp [encodeWeapon, decodeWeapon, reqField, getField, List.find?,
    decodeU32, exceptBindOk, exceptPure, h.1, h.2]

/-- Round-trip for the `CellType` tokens. -/
theorem roundtripCellType (t : CellType) :
    decodeCellType (encodeCellType t) = .ok t := by
  cases t <;> simp [encodeCellType, decodeCellType]

/-- Round-trip for the `PowerupType` token. -/
theorem roundtripPowerupType (t : PowerupType) :
    decodePowerupType (encodePowerupType t) = .ok t := by
  cases t
  simp [encodePowerupType, decodePowerupType]

/-- Round-trip for `Powerup` on in-range values. -/
theorem roundtripPowerup (p : Powerup) (h : p.valid = true) :
    decodePowerup (encodePowerup p) = .ok p := by
  simp [Powerup.valid] at h
  simp [encodePowerup, decodePowerup, reqField, getField, List.find?,
    decodeU32, exceptBindOk, exceptPure, roundtripPowerupType, h]

/-- Round-trip for the untagged `CellWorm`: each variant's encoding is
decoded back to the same variant. -/
theorem roundtripCellWorm (w : CellWorm) (h : w.valid = true) :
    decodeCellWorm (encodeCellWorm w) = .ok w := by
  cases w with
  | playerWorm i pid hl pos dr mr wp =>
    simp only [CellWorm.valid, Bool.and_eq_true, decide_eq_true_eq] at h
    obtain ⟨⟨⟨⟨⟨⟨h1, h2⟩, h3⟩, h4⟩, h5⟩, h6⟩, h7⟩ := h
    simp [encodeCellWorm, decodeCellWorm, decodePlayerCellWorm, reqField,
      getField, List.find?, decodeU32, exceptBindOk, exceptPure,
      roundtripPosition pos h4, roundtripWeapon wp h7, h1, h2, h3, h5, h6]
  | opponentWorm i pid hl pos dr mr =>
    simp only [CellWorm.valid, Bool.and_eq_true, decide_eq_true_eq] at h
    obtain ⟨⟨⟨⟨⟨h1, h2⟩, h3⟩, h4⟩, h5⟩, h6⟩ := h
    simp [encodeCellWorm, decodeCellWorm, decodePlayerCellWorm,
      decodeOpponentCellWorm, reqField, getField, List.find?, decodeU32,
      exceptBindOk, exceptBindErr, exceptPure,
      roundtripPosition pos h4, h1, h2, h3, h5, h6]

/-- Element-wise round-trip lifts to lists. -/
theorem roundtripList (dec : Json → Except String α) (enc : α → Json)
    (xs : List α) (h : ∀ x ∈ xs, dec (enc x) = .ok x) :
    decodeList dec (xs.map enc) = .ok xs := by
  induction xs with
  | nil => rfl
  | cons a as ih =>
    simp only [List.map_cons, decodeList]
    rw [h a (List.mem_cons_self a as), exceptBindOk,
      ih (fun x hx => h x (List.mem_cons_of_mem a hx)), exceptBindOk]
    rfl

/-- Round-trip for `Cell`, covering absent and present `occupier` and
`powerup` fields. -/
theorem roundtripCell (c : Cell) (h : c.valid = true) :
    decodeCell (encodeCell c) = .ok c := by
  obtain ⟨x, y, t, occ, pw⟩ := c
  simp only [Cell.valid, Bool.and_eq_true, decide_eq_true_eq] at h
  obtain ⟨⟨⟨h1, h2⟩, h3⟩, h4⟩ := h
  have hocc : optField
      [("x", Json.num x), ("y", Json.num y), ("type", encodeCellType t),
       ("occupier", encodeOpt encodeCellWorm occ),
       ("powerup", encodeOpt encodePowerup pw)] "occupier" decodeCellWorm
      = .ok occ := by
    cases occ with
    | none => rfl
    | some ow =>
      simp only [optValid] at h3
      have := roundtripCellWorm ow h3
      cases ow <;>
        simp only [optField, getField, List.find?, encodeOpt,
          encodeCellWorm] at this ⊢ <;>
        simp_all [exceptMapOk]
  have hpw : optField
      [("x", Json.num x), ("y", Json.num y), ("type", encodeCellType t),
       ("occupier", encodeOpt encodeCellWorm occ),
       ("powerup", encodeOpt encodePowerup pw)] "powerup" decodePowerup
      = .ok pw := by
    cases pw with
    | none => rfl
    | some p =>
      simp only [optValid] at h4
      have := roundtripPowerup p h4
      simp only [optField, getField, List.find?, encodeOpt,
        encodePowerup] at this ⊢
      simp_all [exceptMapOk]
  simp [encodeCell, decodeCell, reqField, getField, List.find?, decodeU32,
    exceptBindOk, exceptPure, roundtripCellType, h1, h2, hocc, hpw]

/-- Round-trip for `PlayerWorm`. -/
theorem roundtripPlayerWorm (w : PlayerWorm) (h : w.valid = true) :
    decodePlayerWorm (encodePlayerWorm w) = .ok w := by
  obtain ⟨i, hl, pos, dr, mr, wp⟩ := w
  simp only [PlayerWorm.valid, Bool.and_eq_true, decide_eq_true_eq] at h
  obtain ⟨⟨⟨⟨⟨h1, h2⟩, h3⟩, h4⟩, h5⟩, h6⟩ := h
  simp [encodePlayerWorm, decodePlayerWorm, reqField, getField, List.find?,
    decodeU32, exceptBindOk, exceptPure,
    roundtripPosition pos h3, roundtripWeapon wp h6, h1, h2, h4, h5]

/-- Round-trip for `Player`. -/
theorem roundtripPlayer (p : Player) (h : p.valid = true) :
    decodePlayer (encodePlayer p) = .ok p := by
  obtain ⟨i, sc, hl, ws⟩ := p
  simp only [Player.valid, Bool.and_eq_true, decide_eq_true_eq,
    List.all_eq_true] at h
  obtain ⟨⟨⟨h1, h2⟩, h3⟩, h4⟩ := h
  have hws : decodeList decodePlayerWorm (ws.map encodePlayerWorm) = .ok ws :=
    roundtripList _ _ ws (fun w hw => roundtripPlayerWorm w (h4 w hw))
  simp [encodePlayer, decodePlayer, reqField, getField, List.find?, decodeU32,
    decodeVec, exceptBindOk, exceptPure, h1, h2, h3, hws]

/-- Round-trip for `OpponentWorm`. -/
theorem roundtripOpponentWorm (w : OpponentWorm) (h : w.valid = true) :
    decodeOpponentWorm (encodeOpponentWorm w) = .ok w := by
  obtain ⟨i, hl, pos, dr, mr⟩ := w
  simp only [OpponentWorm.valid, Bool.and_eq_true, decide_eq_true_eq] at h
  obtain ⟨⟨⟨⟨h1, h2⟩, h3⟩, h4⟩, h5⟩ := h
  simp [encodeOpponentWorm, decodeOpponentWorm, reqField, getField,
    List.find?, decodeU32, exceptBindOk, exceptPure,
    roundtripPosition pos h3, h1, h2, h4, h5]

/-- Round-trip for `Opponent`. -/
theorem roundtripOpponent (o : Opponent) (h : o.valid = true) :
    decodeOpponent (encodeOpponent o) = .ok o := by
  obtain ⟨i, sc, ws⟩ := o
  simp only [Opponent.valid, Bool.and_eq_true, decide_eq_true_eq,
    List.all_eq_true] at h
  obtain ⟨⟨h1, h2⟩, h3⟩ := h
  have hws : decodeList decodeOpponentWorm (ws.map encodeOpponentWorm) = .ok ws :=
    roundtripList _ _ ws (fun w hw => roundtripOpponentWorm w (h3 w hw))
  simp [encodeOpponent, decodeOpponent, reqField, getField, List.find?,
    decodeU32, decodeVec, exceptBindOk, exceptPure, h1, h2, hws]

/-- Round-trip for the cell grid (rows of cells). -/
theorem roundtripCellGrid (rows : List (List Cell))
    (h : ∀ row ∈ rows, ∀ c ∈ row, c.valid = true) :
    decodeList (decodeVec decodeCell)
      (rows.map (fun row => Json.arr (row.map encodeCell))) = .ok rows := by
  refine roundtripList _ _ rows (fun row hrow => ?_)
  simp only [decodeVec]
  exact roundtripList _ _ row (fun c hc => roundtripCell c (h row hrow c hc))

/-- If both `CellWorm` variant decoders fail on an object's fields, the
untagged decode fails. -/
theorem cellWormBothVariantsFail (fs : List (String × Json))
    (hp : (decodePlayerCellWorm fs).isErr = true)
    (ho : (decodeOpponentCellWorm fs).isErr = true) :
    (decodeCellWorm (Json.obj fs)).isErr = true := by
  cases hP : decodePlayerCellWorm fs with
  | ok w => rw [hP] at hp; simp [Except.isErr] at hp
  | error e =>
    cases hO : decodeOpponentCellWorm fs with
    | ok w => rw [hO] at ho; simp [Except.isErr] at ho
    | error e2 => simp [decodeCellWorm, hP, hO, Except.isErr]

/-- C1: an occupier object carrying id, playerId, health, position,
diggingRange, movementRange AND a weapon sub-object decodes to the
player-owned `CellWorm` variant; with the same fields but no weapon it
decodes to the opponent-owned variant (the weapon-bearing variant is
tried first, so neither payload shape is mis-parsed as the other); an
object matching neither shape (here: no id field) fails the parse. -/
theorem cellworm_untagged_discrimination :
    (∀ fs i pid hl jp pos dr mr jw w,
      getField fs "id" = some (Json.num i) → i < U32SIZE →
      getField fs "playerId" = some (Json.num pid) → pid < U32SIZE →
      getField fs "health" = some (Json.num hl) → hl < U32SIZE →
      getField fs "position" = some jp → decodePosition jp = .ok pos →
      getField fs "diggingRange" = some (Json.num dr) → dr < U32SIZE →
      getField fs "movementRange" = some (Json.num mr) → mr < U32SIZE →
      getField fs "weapon" = some jw → decodeWeapon jw = .ok w →
      decodeCellWorm (Json.obj fs) = .ok (.playerWorm i pid hl pos dr mr w)) ∧
    (∀ fs i pid hl jp pos dr mr,
      getField fs "id" = some (Json.num i) → i < U32SIZE →
      getField fs "playerId" = some (Json.num pid) → pid < U32SIZE →
      getField fs "health" = some (Json.num hl) → hl < U32SIZE →
      getField fs "position" = some jp → decodePosition jp = .ok pos →
      getField fs "diggingRange" = some (Json.num dr) → dr < U32SIZE →
      getField fs "movementRange" = some (Json.num mr) → mr < U32SIZE →
      getField fs "weapon" = none →
      decodeCellWorm (Json.obj fs) = .ok (.opponentWorm i pid hl pos dr mr)) ∧
    (∀ fs, getField fs "id" = none →
      (decodeCellWorm (Json.obj fs)).isErr = true) := by
  refine ⟨?_, ?_, ?_⟩
  · intro fs i pid hl jp pos dr mr jw w hid hi hpid hp2 hhl hh hjp hpos hdr
      hd hmr hm hjw hw
    simp [decodeCellWorm, decodePlayerCellWorm, reqField, decodeU32,
      hid, hpid, hhl, hjp, hdr, hmr, hjw, hpos, hw, hi, hp2, hh, hd, hm,
      exceptBindOk, exceptPure]
  · intro fs i pid hl jp pos dr mr hid hi hpid hp2 hhl hh hjp hpos hdr
      hd hmr hm hjw
    simp [decodeCellWorm, decodePlayerCellWorm, decodeOpponentCellWorm,
      reqField, decodeU32, hid, hpid, hhl, hjp, hdr, hmr, hjw, hpos,
      hi, hp2, hh, hd, hm, exceptBindOk, exceptBindErr, exceptPure]
  · intro fs hid
    refine cellWormBothVariantsFail fs ?_ ?_
    · unfold decodePlayerCellWorm
      exact isErrReqBind _ _ _ _ hid
    · unfold decodeOpponentCellWorm
      exact isErrReqBind _ _ _ _ hid

/-- Witness for C1: the two occupier payloads of the repository's test
fixture decode to the expected variants, and an occupier with neither
shape is rejected. -/
theorem cellworm_untagged_discrimination_witness :
    decodeCellWorm (Json.obj [("id", .num 1), ("playerId", .num 1),
      ("health", .num 100), ("position", .obj [("x", .num 2), ("y", .num 1)]),
      ("diggingRange", .num 1), ("movementRange", .num 1),
      ("weapon", .obj [("damage", .num 1), ("range", .num 3)])]) =
      .ok (.playerWorm 1 1 100 { x := 2, y := 1 } 1 1
        { damage := 1, range := 3 }) ∧
    decodeCellWorm (Json.obj [("id", .num 1), ("playerId", .num 2),
      ("health", .num 100), ("position", .obj [("x", .num 1), ("y", .num 1)]),
      ("diggingRange", .num 1), ("movementRange", .num 1)]) =
      .ok (.opponentWorm 1 2 100 { x := 1, y := 1 } 1 1) ∧
    (decodeCellWorm (Json.obj [("x", .num 0), ("y", .num 0)])).isErr = true := by
  refine ⟨?_, ?_, ?_⟩
  · exact cellworm_untagged_discrimination.1 _ 1 1 100 _ _ 1 1 _ _
      (by rfl) (by decide) (by rfl) (by decide) (by rfl) (by decide)
      (by rfl) (by rfl) (by rfl) (by decide) (by rfl) (by decide)
      (by rfl) (by rfl)
  · exact cellworm_untagged_discrimination.2.1 _ 1 2 100 _ _ 1 1
      (by rfl) (by decide) (by rfl) (by decide) (by rfl) (by decide)
      (by rfl) (by rfl) (by rfl) (by decide) (by rfl) (by decide)
      (by rfl)
  · exact cellworm_untagged_discrimination.2.2 _ (by rfl)

/-- C2: for every entity of the data model, a document missing any of
that entity's required fields fails its decode with an error (never a
default-filled value), and any enumeration token outside the closed
sets AIR / DIRT / DEEP_SPACE and HEALTH_PACK fails the parse. Errors
propagate through `decodeState`, the parse stage of
`read_state_from_json_file`. -/
theorem schema_missing_field_or_unknown_token_fails :
    (∀ fs name, name ∈ stateRequiredFields → getField fs name = none →
      (decodeState (Json.obj fs)).isErr = true) ∧
    (∀ fs name, name ∈ playerRequiredFields → getField fs name = none →
      (decodePlayer (Json.obj fs)).isErr = true) ∧
    (∀ fs name, name ∈ playerWormRequiredFields → getField fs name = none →
      (decodePlayerWorm (Json.obj fs)).isErr = true) ∧
    (∀ fs name, name ∈ opponentRequiredFields → getField fs name = none →
      (decodeOpponent (Json.obj fs)).isErr = true) ∧
    (∀ fs name, name ∈ opponentWormRequiredFields → getField fs name = none →
      (decodeOpponentWorm (Json.obj fs)).isErr = true) ∧
    (∀ fs name, name ∈ cellRequiredFields → getField fs name = none →
      (decodeCell (Json.obj fs)).isErr = true) ∧
    (∀ fs name, name ∈ powerupRequiredFields → getField fs name = none →
      (decodePowerup (Json.obj fs)).isErr = true) ∧
    (∀ fs name, name ∈ positionRequiredFields → getField fs name = none →
      (decodePosition (Json.obj fs)).isErr = true) ∧
    (∀ fs name, name ∈ weaponRequiredFields → getField fs name = none →
      (decodeWeapon (Json.obj fs)).isErr = true) ∧
    (∀ fs name, name ∈ cellWormSharedRequiredFields → getField fs name = none →
      (decodeCellWorm (Json.obj fs)).isErr = true) ∧
    (∀ t, t ∉ (["AIR", "DIRT", "DEEP_SPACE"] : List String) →
      (decodeCellType (Json.str t)).isErr = true) ∧
    (∀ t, t ≠ "HEALTH_PACK" → (decodePowerupType (Json.str t)).isErr = true) := by
  refine ⟨?_, ?_, ?_, ?_, ?_, ?_, ?_, ?_, ?_, ?_, ?_, ?_⟩
  · intro fs name hmem h
    fin_cases hmem <;>
      · unfold decodeState
        repeat first
          | exact isErrReqBind _ _ _ _ h
          | (apply isErrBind; intro _)
  · intro fs name hmem h
    fin_cases hmem <;>
      · unfold decodePlayer
        repeat first
          | exact isErrReqBind _ _ _ _ h
          | (apply isErrBind; intro _)
  · intro fs name hmem h
    fin_cases hmem <;>
      · unfold decodePlayerWorm
        repeat first
          | exact isErrReqBind _ _ _ _ h
          | (apply isErrBind; intro _)
  · intro fs name hmem h
    fin_cases hmem <;>
      · unfold decodeOpponent
        repeat first
          | exact isErrReqBind _ _ _ _ h
          | (apply isErrBind; intro _)
  · intro fs name hmem h
    fin_cases hmem <;>
      · unfold decodeOpponentWorm
        repeat first
          | exact isErrReqBind _ _ _ _ h
          | (apply isErrBind; intro _)
  · intro fs name hmem h
    fin_cases hmem <;>
      · unfold decodeCell
        repeat first
          | exact isErrReqBind _ _ _ _ h
          | (apply isErrBind; intro _)
  · intro fs name hmem h
    fin_cases hmem <;>
      · unfold decodePowerup
        repeat first
          | exact isErrReqBind _ _ _ _ h
          | (apply isErrBind; intro _)
  · intro fs name hmem h
    fin_cases hmem <;>
      · unfold decodePosition
        repeat first
          | exact isErrReqBind _ _ _ _ h
          | (apply isErrBind; intro _)
  · intro fs name hmem h
    fin_cases hmem <;>
      · unfold decodeWeapon
        repeat first
          | exact isErrReqBind _ _ _ _ h
          | (apply isErrBind; intro _)
  · intro fs name hmem h
    fin_cases hmem <;>
      · refine cellWormBothVariantsFail fs ?_ ?_
        · unfold decodePlayerCellWorm
          repeat first
            | exact isErrReqBind _ _ _ _ h
            | (apply isErrBind; intro _)
        · unfold decodeOpponentCellWorm
          repeat first
            | exact isErrReqBind _ _ _ _ h
            | (apply isErrBind; intro _)
  · intro t ht
    simp only [List.mem_cons, List.not_mem_nil, or_false, not_or] at ht
    obtain ⟨h1, h2, h3⟩ := ht
    simp [decodeCellType, h1, h2, h3, Except.isErr]
  · intro t ht
    simp [decodePowerupType, ht, Except.isErr]

/-- Witness for C2: one concrete missing-field document per entity, and
two unknown enumeration tokens, all rejected. -/
theorem schema_missing_field_or_unknown_token_fails_witness :
    ("mapSize" ∈ stateRequiredFields ∧ getField [] "mapSize" = none ∧
      (decodeState (Json.obj [])).isErr = true) ∧
    ((decodePlayer (Json.obj [])).isErr = true) ∧
    ((decodePlayerWorm (Json.obj [])).isErr = true) ∧
    ((decodeOpponent (Json.obj [])).isErr = true) ∧
    ((decodeOpponentWorm (Json.obj [])).isErr = true) ∧
    ((decodeCell (Json.obj [("x", Json.num 0), ("y", Json.num 0)])).isErr = true) ∧
    ((decodePowerup (Json.obj [("type", Json.str "HEALTH_PACK")])).isErr = true) ∧
    ((decodePosition (Json.obj [("x", Json.num 3)])).isErr = true) ∧
    ((decodeWeapon (Json.obj [("damage", Json.num 1)])).isErr = true) ∧
    ((decodeCellWorm (Json.obj [("id", Json.num 1)])).isErr = true) ∧
    ((decodeCellType (Json.str "LAVA")).isErr = true) ∧
    ((decodePowerupType (Json.str "BANANA")).isErr = true) := by
  refine ⟨⟨by decide, by rfl, ?_⟩, ?_, ?_, ?_, ?_, ?_, ?_, ?_, ?_, ?_, ?_, ?_⟩
  · exact schema_missing_field_or_unknown_token_fails.1 [] "mapSize"
      (by decide) (by rfl)
  · exact schema_missing_field_or_unknown_token_fails.2.1 [] "score"
      (by decide) (by rfl)
  · exact schema_missing_field_or_unknown_token_fails.2.2.1 [] "health"
      (by decide) (by rfl)
  · exact schema_missing_field_or_unknown_token_fails.2.2.2.1 [] "worms"
      (by decide) (by rfl)
  · exact schema_missing_field_or_unknown_token_fails.2.2.2.2.1 [] "position"
      (by decide) (by rfl)
  · exact schema_missing_field_or_unknown_token_fails.2.2.2.2.2.1
      [("x", Json.num 0), ("y", Json.num 0)] "type" (by decide) (by rfl)
  · exact schema_missing_field_or_unknown_token_fails.2.2.2.2.2.2.1
      [("type", Json.str "HEALTH_PACK")] "value" (by decide) (by rfl)
  · exact schema_missing_field_or_unknown_token_fails.2.2.2.2.2.2.2.1
      [("x", Json.num 3)] "y" (by decide) (by rfl)
  · exact schema_missing_field_or_unknown_token_fails.2.2.2.2.2.2.2.2.1
      [("damage", Json.num 1)] "range" (by decide) (by rfl)
  · exact schema_missing_field_or_unknown_token_fails.2.2.2.2.2.2.2.2.2.1
      [("id", Json.num 1)] "playerId" (by decide) (by rfl)
  · exact schema_missing_field_or_unknown_token_fails.2.2.2.2.2.2.2.2.2.2.1
      "LAVA" (by decide)
  · exact schema_missing_field_or_unknown_token_fails.2.2.2.2.2.2.2.2.2.2.2
      "BANANA" (by decide)

/-- C3: serializing any well-formed `State` with the derived serializer
and deserializing the result returns exactly the original value,
including cells with either `CellWorm` occupier variant and cells with
absent occupier or powerup. -/
theorem state_roundtrip (s : State) (h : s.valid = true) :
    decodeState (encodeState s) = .ok s := by
  obtain ⟨cr, mxr, ms, cw, cd, mp, ops, grid⟩ := s
  simp only [State.valid, Bool.and_eq_true, decide_eq_true_eq,
    List.all_eq_true] at h
  obtain ⟨⟨⟨⟨⟨⟨⟨h1, h2⟩, h3⟩, h4⟩, h5⟩, h6⟩, h7⟩, h8⟩ := h
  have hops : decodeList decodeOpponent (ops.map encodeOpponent) = .ok ops :=
    roundtripList _ _ ops (fun o ho => roundtripOpponent o (h7 o ho))
  have hgrid := roundtripCellGrid grid (fun row hrow c hc => h8 row hrow c hc)
  simp [encodeState, decodeState, reqField, getField, List.find?, decodeU32,
    decodeVec, exceptBindOk, exceptPure, roundtripPlayer mp h6,
    h1, h2, h3, h4, h5, hops, hgrid]

/-- Witness for C3: the repository's test fixture state (with both
occupier variants, a powerup, and cells with absent options) round
trips. -/
theorem state_roundtrip_witness :
    exampleState.valid = true ∧
    decodeState (encodeState exampleState) = .ok exampleState :=
  ⟨by decide, state_roundtrip exampleState (by decide)⟩

/-- Counterexample to C4: a schema-conforming document whose `mapSize`
is 5 while its map is a single row of one cell, and whose
`currentWormId` 7 matches no worm of `myPlayer.worms`, is accepted by
the loader's parse stage rather than rejected. -/
theorem loader_accepts_invariant_violation :
    decodeState invariantViolatingDoc = .ok invariantViolatingState ∧
    (invariantViolatingState.map.length ==
      invariantViolatingState.map_size) = false ∧
    invariantViolatingState.my_player.worms.all
      (fun w => w.id != invariantViolatingState.current_worm_id) = true := by
  refine ⟨by rfl, by decide, by decide⟩

/-- C4 amended: the loader validates only schema shape; it can return a
`State` whose map dimensions differ from `mapSize` and whose
`currentWormId` is absent from `myPlayer.worms` — the §3 invariant is
not enforced by `read_state_from_json_file`. -/
theorem loader_no_invariant_check :
    ∃ (j : Json) (s : State), decodeState j = .ok s ∧
      (s.map.length == s.map_size) = false ∧
      s.my_player.worms.all (fun w => w.id != s.current_worm_id) = true :=
  ⟨invariantViolatingDoc, invariantViolatingState, by rfl, by decide, by decide⟩

/-- C8: whenever some entry of `my_player.worms` has id equal to
`current_worm_id`, `active_worm` returns a worm of that list with that
id; when no entry matches, it panics (modelled as `none`) instead of
returning a recoverable error value. -/
theorem active_worm_found_or_panic (s : State) :
    ((∃ w ∈ s.my_player.worms, w.id = s.current_worm_id) →
      ∃ w, s.active_worm = some w ∧ w ∈ s.my_player.worms ∧
        w.id = s.current_worm_id) ∧
    ((∀ w ∈ s.my_player.worms, w.id ≠ s.current_worm_id) →
      s.active_worm = none) := by
  constructor
  · rintro ⟨w0, hw0, hid⟩
    have hsome : (s.my_player.worms.find?
        (fun w => w.id == s.current_worm_id)).isSome := by
      rw [List.find?_isSome]
      exact ⟨w0, hw0, by simp [hid]⟩
    obtain ⟨w, hw⟩ := Option.isSome_iff_exists.mp hsome
    refine ⟨w, hw, List.mem_of_find?_eq_some hw, ?_⟩
    have := List.find?_some hw
    simpa using this
  · intro hall
    unfold State.active_worm
    rw [List.find?_eq_none]
    intro w hw
    simp [hall w hw]

/-- Witness for C8: the fixture state yields its only worm (id 1); a
state whose `currentWormId` 7 matches no worm panics (`none`). -/
theorem active_worm_found_or_panic_witness :
    (∃ w, exampleState.active_worm = some w ∧
      w ∈ exampleState.my_player.worms ∧
      w.id = exampleState.current_worm_id) ∧
    invariantViolatingState.active_worm = none :=
  ⟨(active_worm_found_or_panic exampleState).1 (by decide),
   (active_worm_found_or_panic invariantViolatingState).2 (by decide)⟩

/-- C9: on a fully populated `mapSize` by `mapSize` grid whose cells
carry pairwise distinct coordinates, `cell_at` returns, for every
in-bounds position, the unique cell storing those coordinates; for a
position matching no cell it panics (modelled as `none`) instead of
returning a recoverable error value. -/
theorem cell_at_unique_or_panic (s : State)
    (hdim : s.map.length = s.map_size ∧ ∀ row ∈ s.map, row.length = s.map_size)
    (hfull : ∀ x, x < s.map_size → ∀ y, y < s.map_size →
      ∃ c ∈ s.map.flatten, c.x = x ∧ c.y = y)
    (hdist : ∀ c1 ∈ s.map.flatten, ∀ c2 ∈ s.map.flatten,
      c1.x = c2.x → c1.y = c2.y → c1 = c2) :
    (∀ p : Position, p.x < s.map_size → p.y < s.map_size →
      ∃ c, s.cell_at p = some c ∧ c.x = p.x ∧ c.y = p.y ∧
        ∀ c2 ∈ s.map.flatten, c2.x = p.x → c2.y = p.y → c2 = c) ∧
    (∀ p : Position, (∀ c ∈ s.map.flatten, ¬(c.x = p.x ∧ c.y = p.y)) →
      s.cell_at p = none) := by
  constructor
  · intro p hx hy
    obtain ⟨c0, hc0mem, hc0x, hc0y⟩ := hfull p.x hx p.y hy
    have hsome : (s.map.flatten.find?
        (fun c => c.x == p.x && c.y == p.y)).isSome := by
      rw [List.find?_isSome]
      exact ⟨c0, hc0mem, by simp [hc0x, hc0y]⟩
    obtain ⟨c, hc⟩ := Option.isSome_iff_exists.mp hsome
    have hcmem := List.mem_of_find?_eq_some hc
    have hpred := List.find?_some hc
    simp only [Bool.and_eq_true, beq_iff_eq] at hpred
    refine ⟨c, hc, hpred.1, hpred.2, ?_⟩
    intro c2 hc2 hx2 hy2
    exact hdist c2 hc2 c hcmem (by rw [hx2, hpred.1]) (by rw [hy2, hpred.2])
  · intro p hnone
    unfold State.cell_at
    rw [List.find?_eq_none]
    intro c hcm
    simp only [Bool.and_eq_true, beq_iff_eq, not_and]
    intro hcx hcy
    exact hnone c hcm ⟨hcx, hcy⟩

/-- Witness for C9: on the 2 by 2 grid state, position (1,0) returns
the unique matching cell, and the out-of-grid position (5,5) panics
(`none`). -/
theorem cell_at_unique_or_panic_witness :
    (∃ c, gridExampleState.cell_at { x := 1, y := 0 } = some c ∧
      c.x = 1 ∧ c.y = 0 ∧
      ∀ c2 ∈ gridExampleState.map.flatten, c2.x = 1 → c2.y = 0 → c2 = c) ∧
    gridExampleState.cell_at { x := 5, y := 5 } = none := by
  constructor
  · exact (cell_at_unique_or_panic gridExampleState (by decide) (by decide)
      (by decide)).1 { x := 1, y := 0 } (by decide) (by decide)
  · exact (cell_at_unique_or_panic gridExampleState (by decide) (by decide)
      (by decide)).2 { x := 5, y := 5 } (by decide)
/-- C5: `east` adds the distance to x when strictly below the bound, else none. -/
theorem east_south_bounded (p : Position) (d b : Nat)
    (hx : p.x < U32SIZE) (hy : p.y < U32SIZE) (hb : b ≤ U32SIZE) :
    (p.east d b = if p.x + d < b then some { x := p.x + d, y := p.y } else none) ∧
    (p.south d b = if p.y + d < b then some { x := p.x, y := p.y + d } else none) := by
  constructor
  · unfold Position.east
    by_cases h1 : p.x + d < b
    · have h2 : p.x + d < U32SIZE := lt_of_lt_of_le h1 hb
      simp [h1, h2]
    · by_cases h2 : p.x + d < U32SIZE <;> simp [h1, h2]
  · unfold Position.south
    by_cases h1 : p.y + d < b
    · have h2 : p.y + d < U32SIZE := lt_of_lt_of_le h1 hb
      simp [h1, h2]
    · by_cases h2 : p.y + d < U32SIZE <;> simp [h1, h2]

theorem east_south_bounded_witness :
    ((3 : Nat) < U32SIZE ∧ (5 : Nat) < U32SIZE ∧ (10 : Nat) ≤ U32SIZE) ∧
    ((Position.mk 3 5).east 4 10 = some (Position.mk 7 5) ∧
     (Position.mk 3 5).south 7 10 = none) := by
  refine ⟨⟨by decide, by decide, by decide⟩, ?_, ?_⟩
  · rw [(east_south_bounded (Position.mk 3 5) 4 10 (by decide) (by decide) (by decide)).1]
    decide
  · rw [(east_south_bounded (Position.mk 3 5) 7 10 (by decide) (by decide) (by decide)).2]
    decide

/-- C6: `west` subtracts the distance from x when that does not
underflow, else none; `north` symmetrically on y. -/
theorem west_north_no_underflow (p : Position) (d : Nat) :
    (p.west d = if d ≤ p.x then some { x := p.x - d, y := p.y } else none) ∧
    (p.north d = if d ≤ p.y then some { x := p.x, y := p.y - d } else none) := by
  exact ⟨rfl, rfl⟩

/-- C7: the four helpers are total checked operations: an x/y step past
`u32::MAX` yields `none`, and any `some` result carries the exact
(unwrapped) arithmetic coordinate, still inside the `u32` range. -/
theorem helpers_total_no_overflow (p : Position) (d b : Nat)
    (hx : p.x < U32SIZE) (hy : p.y < U32SIZE) :
    (U32SIZE ≤ p.x + d → p.east d b = none) ∧
    (U32SIZE ≤ p.y + d → p.south d b = none) ∧
    (∀ q, p.east d b = some q → q.x = p.x + d ∧ q.x < U32SIZE) ∧
    (∀ q, p.south d b = some q → q.y = p.y + d ∧ q.y < U32SIZE) ∧
    (∀ q, p.west d = some q → q.x + d = p.x ∧ q.x < U32SIZE) ∧
    (∀ q, p.north d = some q → q.y + d = p.y ∧ q.y < U32SIZE) := by
  refine ⟨?_, ?_, ?_, ?_, ?_, ?_⟩
  · intro h
    unfold Position.east
    simp [Nat.not_lt_of_le h]
  · intro h
    unfold Position.south
    simp [Nat.not_lt_of_le h]
  · intro q hq
    unfold Position.east at hq
    by_cases h1 : p.x + d < U32SIZE
    · by_cases h2 : p.x + d < b <;> simp [h1, h2] at hq
      exact ⟨by rw [← hq], by rw [← hq]; exact h1⟩
    · simp [h1] at hq
  · intro q hq
    unfold Position.south at hq
    by_cases h1 : p.y + d < U32SIZE
    · by_cases h2 : p.y + d < b <;> simp [h1, h2] at hq
      exact ⟨by rw [← hq], by rw [← hq]; exact h1⟩
    · simp [h1] at hq
  · intro q hq
    unfold Position.west at hq
    by_cases h1 : d ≤ p.x <;> simp [h1] at hq
    constructor
    · rw [← hq]
      simp
      exact Nat.sub_add_cancel h1
    · rw [← hq]
      simp
      exact lt_of_le_of_lt (Nat.sub_le _ _) hx
  · intro q hq
    unfold Position.north at hq
    by_cases h1 : d ≤ p.y <;> simp [h1] at hq
    constructor
    · rw [← hq]
      simp
      exact Nat.sub_add_cancel h1
    · rw [← hq]
      simp
      exact lt_of_le_of_lt (Nat.sub_le _ _) hy

theorem helpers_total_no_overflow_witness :
    ((4294967295 : Nat) < U32SIZE ∧ (0 : Nat) < U32SIZE) ∧
    (Position.mk 4294967295 0).east 1 4294967295 = none ∧
    ((Position.mk 7 9).west 3 = some (Position.mk 4 9) → 4 + 3 = 7 ∧ 4 < U32SIZE) := by
  refine ⟨⟨by decide, by decide⟩, ?_, ?_⟩
  · exact (helpers_total_no_overflow (Position.mk 4294967295 0) 1 4294967295
      (by decide) (by decide)).1 (by decide)
  · intro h
    exact (helpers_total_no_overflow (Position.mk 7 9) 3 0
      (by decide) (by decide)).2.2.2.2.1 (Position.mk 4 9) h

/-- C10: each helper moves along exactly one axis: on a `some` result,
`west`/`east` keep y unchanged and `north`/`south` keep x unchanged. -/
theorem helpers_frame (p : Position) (d b : Nat) :
    (∀ q, p.west d = some q → q.y = p.y) ∧
    (∀ q, p.east d b = some q → q.y = p.y) ∧
    (∀ q, p.north d = some q → q.x = p.x) ∧
    (∀ q, p.south d b = some q → q.x = p.x) := by
  refine ⟨?_, ?_, ?_, ?_⟩
  · intro q hq
    unfold Position.west at hq
    by_cases h1 : d ≤ p.x <;> simp [h1] at hq
    rw [← hq]
  · intro q hq
    unfold Position.east at hq
    by_cases h1 : p.x + d < U32SIZE
    · by_cases h2 : p.x + d < b <;> simp [h1, h2] at hq
      rw [← hq]
    · simp [h1] at hq
  · intro q hq
    unfold Position.north at hq
    by_cases h1 : d ≤ p.y <;> simp [h1] at hq
    rw [← hq]
  · intro q hq
    unfold Position.south at hq
    by_cases h1 : p.y + d < U32SIZE
    · by_cases h2 : p.y + d < b <;> simp [h1, h2] at hq
      rw [← hq]
    · simp [h1] at hq

theorem helpers_frame_witness :
    (Position.mk 2 5).west 1 = some (Position.mk 1 5) ∧
    ((Position.mk 2 5).east 1 10 = some (Position.mk 3 5) → (3 : Nat) = 5 ∨ True) := by
  constructor
  · have := (helpers_frame (Position.mk 2 5) 1 10).1 (Position.mk 1 5)
    decide
  · intro h
    have := (helpers_frame (Position.mk 2 5) 1 10).2.1 (Position.mk 3 5) h
    exact Or.inr trivial

